import Mathlib

/-!
Verification of the certificate compositor of `mini-certificado-app`
(`backend/src/services/certificadoGenerator.ts`), against its natural-language
specification.

The generator is embedded shallowly: the mutable PDFKit document is modelled as
an explicit `DocState` (current font, font size, fill color, and the ordered
list of drawing commands issued so far); each `doc.fontSize/.font/.fillColor/
.text/.rect/.image/...` call becomes a state-passing function.  The rendering
environment that the source reads implicitly — whether the Caveat fonts
registered, whether the signature image loads, the text-measurement capability
(`doc.widthOfString`), and the wall clock (`new Date()`) — is passed explicitly
as a `RenderEnv`.  JavaScript exceptions (notably the `RangeError` thrown by
`String.prototype.repeat` on a negative count) become `Except` errors, which
the promise machinery of `generateCertificado` turns into a rejected result.
-/

set_option autoImplicit false

/-- A JavaScript `Date`, modelled by the values of the three accessors the
generator calls: `getDate()` (day of month, 1-based), `getMonth()` (0-based
month) and `getFullYear()`. -/
structure Fecha where
  getDate : Nat
  getMonth : Nat
  getFullYear : Nat
  deriving DecidableEq

/-- Input record for one certificate (interface `CertificadoData` in
`backend/src/types/index.ts`).  `fechaEmision` is optional, as in the source. -/
structure CertificadoData where
  codigoDiagnostico : String
  nombre : String
  apellido : String
  dni : String
  horasReposo : Nat
  textoEntrada : String
  fechaEmision : Option Fecha
  deriving DecidableEq

/-- Margin block of the layout configuration. -/
structure Margins where
  top : ℚ
  bottom : ℚ
  left : ℚ
  right : ℚ
  deriving DecidableEq

/-- Color block of the layout configuration. -/
structure Colors where
  primary : String
  secondary : String
  text : String
  accent : String
  deriving DecidableEq

/-- Font identifiers of the layout configuration. -/
structure Fonts where
  title : String
  body : String
  signature : String
  caveat : Option String
  caveatMedium : Option String
  deriving DecidableEq

/-- Layout configuration (interface `CertificadoConfig` in
`backend/src/types/index.ts`). -/
structure CertificadoConfig where
  width : ℚ
  height : ℚ
  margins : Margins
  colors : Colors
  fonts : Fonts
  deriving DecidableEq

/-- The default layout configuration (`defaultConfig` in
`certificadoGenerator.ts`, lines 12-34).  `283.46` and `535.28` points are
written as exact rationals. -/
def defaultConfig : CertificadoConfig :=
  { width := 28346 / 100
    height := 53528 / 100
    margins := { top := 25, bottom := 25, left := 20, right := 20 }
    colors := { primary := "#1976d2", secondary := "#dc004e",
                text := "#333333", accent := "#666666" }
    fonts := { title := "Helvetica-Bold", body := "Helvetica",
               signature := "Helvetica-Oblique",
               caveat := some "Caveat-Regular",
               caveatMedium := some "Caveat-Medium" } }

/-- One drawing command issued against the PDFKit document: filled rectangles,
stroked lines, text runs (recording the font/size/color state they were issued
under and their `continued`/`width`/`align` options), image placement and the
graphics-state save/restore pair of the watermark phase. -/
inductive Cmd where
  | rect (x y w h : ℚ) (color : String)
  | line (x1 y1 x2 y2 : ℚ) (color : String) (lineWidth : ℚ)
  | text (s : String) (x y : ℚ) (font : String) (size : ℚ) (color : String)
      (continued : Bool) (width : Option ℚ) (align : Option String)
  | image (path : String) (x y w h : ℚ)
  | save
  | restore
  deriving DecidableEq

/-- The mutable PDFKit document: its current font, font size and fill color,
plus the ordered list of drawing commands issued so far. -/
structure DocState where
  font : String
  size : ℚ
  color : String
  cmds : List Cmd
  deriving DecidableEq

/-- A fresh `new PDFDocument(...)`: PDFKit defaults to Helvetica at size 12
with black fill. -/
def initDocState : DocState := { font := "Helvetica", size := 12, color := "black", cmds := [] }

/-- Model of `doc.fontSize(n)`. -/
def DocState.setFontSize : DocState → ℚ → DocState
  | ⟨f, _, c, l⟩, n => ⟨f, n, c, l⟩

/-- Model of `doc.font(name)` for a font name that resolves. -/
def DocState.setFont : DocState → String → DocState
  | ⟨_, s, c, l⟩, f => ⟨f, s, c, l⟩

/-- Model of `doc.fillColor(c)`. -/
def DocState.setFillColor : DocState → String → DocState
  | ⟨f, s, _, l⟩, c => ⟨f, s, c, l⟩

/-- Model of `doc.text(s, x, y, opts)`: emits a text run carrying the current
font/size/color state. -/
def DocState.emitText : DocState → String → ℚ → ℚ → Bool → Option ℚ → Option String → DocState
  | ⟨f, sz, c, l⟩, s, x, y, continued, width, align =>
      ⟨f, sz, c, l ++ [Cmd.text s x y f sz c continued width align]⟩

/-- Model of `doc.rect(x, y, w, h).fillColor(c).fill()`: emits the filled
rectangle and leaves `c` as the current fill color. -/
def DocState.fillRect : DocState → ℚ → ℚ → ℚ → ℚ → String → DocState
  | ⟨f, s, _, l⟩, x, y, w, h, c => ⟨f, s, c, l ++ [Cmd.rect x y w h c]⟩

/-- Model of `doc.moveTo(x1, y1).lineTo(x2, y2).strokeColor(c).lineWidth(w).stroke()`. -/
def DocState.strokeLine : DocState → ℚ → ℚ → ℚ → ℚ → String → ℚ → DocState
  | ⟨f, s, c, l⟩, x1, y1, x2, y2, sc, w => ⟨f, s, c, l ++ [Cmd.line x1 y1 x2 y2 sc w]⟩

/-- Model of `doc.image(path, x, y, opts)` when the image loads. -/
def DocState.drawImage : DocState → String → ℚ → ℚ → ℚ → ℚ → DocState
  | ⟨f, s, c, l⟩, p, x, y, w, h => ⟨f, s, c, l ++ [Cmd.image p x y w h]⟩

/-- Model of `doc.save()`. -/
def DocState.saveGfx : DocState → DocState
  | ⟨f, s, c, l⟩ => ⟨f, s, c, l ++ [Cmd.save]⟩

/-- Model of `doc.restore()`. -/
def DocState.restoreGfx : DocState → DocState
  | ⟨f, s, c, l⟩ => ⟨f, s, c, l ++ [Cmd.restore]⟩

/-- The environment a render call reads implicitly: whether the Caveat-Medium
font registered (lines 64-72; every later `try doc.font('Caveat-Medium')`
succeeds exactly when it did), whether `doc.image` succeeds on the signature
asset (lines 460-480), the text-measurement capability `doc.widthOfString`
(a function of the current font, the current font size and the string), and
the wall clock read by `new Date()` in `drawFooter` (line 417). -/
structure RenderEnv where
  caveatMediumOk : Bool
  imageOk : Bool
  measure : String → ℚ → String → ℚ
  now : Fecha

/-- The font every patient-value text run actually gets: each value is drawn
inside `try doc.font('Caveat-Medium') ... catch doc.font(config.fonts.body) ...`
(lines 280-290, 313-323, 349-359, 367-377, 384-394, 424-435), so it resolves to
`"Caveat-Medium"` when the registration succeeded and to `fonts.body`
otherwise. -/
def valueFont (env : RenderEnv) (cfg : CertificadoConfig) : String :=
  if env.caveatMediumOk then "Caveat-Medium" else cfg.fonts.body

/-- JavaScript `'.'.repeat(n)`: throws a `RangeError` when `n` is negative
(ECMA-262, `String.prototype.repeat` step 4), else yields `n` dots. -/
def jsRepeatDot (n : ℤ) : Except String String :=
  if n < 0 then Except.error "RangeError: Invalid count value"
  else Except.ok (String.mk (List.replicate n.toNat '.'))

/-- The filler-dot count of lines 300 and 333:
`Math.floor((espacioDisponible - width) / perDot)`. -/
def fillerCount (avail per w : ℚ) : ℤ := Int.floor ((avail - w) / per)

/-- JavaScript `s.toUpperCase()`, character by character (names are validated
upstream to letters, spaces and accents; the ASCII range is what the
uppercase mapping acts on here). -/
def jsToUpperCase (s : String) : String := String.mk (s.data.map Char.toUpper)

/-- Line 279: `` `${data.nombre.toUpperCase()} ${data.apellido.toUpperCase()}` ``. -/
def nombreCompleto (data : CertificadoData) : String :=
  jsToUpperCase data.nombre ++ " " ++ jsToUpperCase data.apellido

/-- Line 348: `data.textoEntrada || 'síndrome gripal'` — the empty string is
the only falsy string, so it alone selects the default. -/
def descripcion (data : CertificadoData) : String :=
  if data.textoEntrada = "" then "síndrome gripal" else data.textoEntrada

/-- Line 211: the shared color of the Caveat value runs. -/
def colorFuenteCaveat : String := "rgba(80, 58, 101, 0.68)"

/-- Line 216: the color of the medical-info label runs. -/
def colorFuenteMedica : String := "rgba(32, 30, 30, 0.68)"

/-- JavaScript `s.padStart(2, '0')`. -/
def padStart2 (s : String) : String :=
  if 2 ≤ s.length then s else String.mk (List.replicate (2 - s.length) '0') ++ s

/-- The footer date string of lines 418-421: zero-padded day, `/`, zero-padded
1-based month, `/`, year. -/
def fechaStr (fecha : Fecha) : String :=
  padStart2 (toString fecha.getDate) ++ "/" ++ padStart2 (toString (fecha.getMonth + 1))
    ++ "/" ++ toString fecha.getFullYear

/-- Method `drawBackgroundImage` (lines 128-170): white page fill, the four
borders, and the two horizontal separators at y = 70 and y = 410. -/
def drawBackgroundImage (cfg : CertificadoConfig) (st : DocState) : DocState :=
  let st := st.fillRect 0 0 cfg.width cfg.height "#ffffff"
  let st := st.fillRect 0 0 2 cfg.height "#000000"
  let st := st.fillRect (cfg.width - 1) 0 1 cfg.height "#000000"
  let st := st.fillRect 0 0 cfg.width 1 "#000000"
  let st := st.fillRect 0 (cfg.height - 1) cfg.width 1 "#000000"
  let st := st.strokeLine 0 70 cfg.width 70 "#000000" (1 / 2)
  st.strokeLine 0 410 cfg.width 410 "#000000" (1 / 2)

/-- Method `drawHeader` (lines 172-202): three centered lines and the `Rp /`
mark. -/
def drawHeader (cfg : CertificadoConfig) (st : DocState) : DocState :=
  let st := ((st.setFontSize 12).setFont cfg.fonts.title).setFillColor "#000000"
  let st := st.emitText "Dra. Kardasz Ivana Noelia" 10 25 false (some 263) (some "center")
  let st := ((st.setFontSize 10).setFont cfg.fonts.body).setFillColor "#000000"
  let st := st.emitText "ESPECIALISTA CLINICA GENERAL" 10 40 false (some 263) (some "center")
  let st := ((st.setFontSize 10).setFont cfg.fonts.body).setFillColor "#000000"
  let st := st.emitText "M.P. 7532" 10 50 false (some 263) (some "center")
  let st := ((st.setFontSize 10).setFont cfg.fonts.body).setFillColor "#000000"
  st.emitText "Rp /" 10 90 false none none

/-- Method `drawDigitalSignature` (lines 459-500): place the signature image at
(160, 300) sized 120 x 80; on any failure fall back to four stacked centered
text lines at the anchor `(x, y)`.  The fallback sets sizes and fill color but
no font, so the runs keep whatever font is current. -/
def drawDigitalSignature (env : RenderEnv) (st : DocState) (x y : ℚ) : DocState :=
  if env.imageOk then
    st.drawImage "./assets/firmaDigital.jpeg" 160 300 120 80
  else
    let st := (st.setFontSize 8).setFillColor "#000000"
    let st := st.emitText "Kardasz Ivana Noelia" x y false (some 100) (some "center")
    let st := (st.setFontSize 7).setFillColor "#000000"
    let st := st.emitText "Especialista" x (y + 10) false (some 100) (some "center")
    let st := (st.setFontSize 6).setFillColor "#000000"
    let st := st.emitText "Medicina General y Familiar" x (y + 20) false (some 100) (some "center")
    let st := (st.setFontSize 7).setFillColor "#000000"
    st.emitText "M.P. 7532" x (y + 30) false (some 100) (some "center")

/-- Method `drawPatientInfo` (lines 204-398).  Layout constants are inlined
exactly as computed in the source: `constanciaY = 120`, `nombreY = 150`,
`caveatNombreY = 145`, `puntosNombreY = 154`, `dniY = 180`, `caveatDniY = 175`,
`puntosDniY = 184`, `consultaY = 210`, `presentarY = 240`,
`caveatSintomasY = 236`, `reposoY = 270`, `caveatReposoY = 267`,
`diagnosticoY = 300`, `caveatDiagnosticoY = 296`, `firmaX = 160`,
`firmaY = 360` (the inline source comments `// 290` and `// 330` next to
`diagnosticoY` and `firmaY` are stale: both interlineados are 30, so the
computed values are 270 + 30 = 300 and 300 + 60 = 360),
`nombreStartX = dniStartX = 50`,
`espacioDisponibleNombre = 200`, `espacioDisponibleDni = 100`.  The two
`'.'.repeat(...)` calls (lines 300 and 333) can throw, which aborts the draw. -/
def drawPatientInfo (env : RenderEnv) (cfg : CertificadoConfig) (data : CertificadoData)
    (st : DocState) : Except String DocState :=
  -- lines 255-264: try Caveat, catch body; overwritten by the next chain
  let st := ((st.setFontSize 14).setFont (valueFont env cfg)).setFillColor colorFuenteCaveat
  -- lines 267-270
  let st := ((st.setFontSize 14).setFont cfg.fonts.body).setFillColor colorFuenteCaveat
  let st := st.emitText "Dejo constancia que el/la" 25 120 false none none
  -- lines 274-277
  let st := ((st.setFontSize 14).setFont cfg.fonts.body).setFillColor colorFuenteCaveat
  let st := st.emitText "Sr/a " 25 150 true none none
  -- lines 280-290: the full name in Caveat-Medium, else fonts.body
  let st := (((st.setFontSize 14).setFont (valueFont env cfg)).setFillColor
      colorFuenteCaveat).emitText (nombreCompleto data) 25 145 false none none
  -- lines 299-302: measure with the current font/size, then the dot run; a
  -- thrown RangeError propagates out of the method (Except.bind)
  (jsRepeatDot (fillerCount 200 3 (env.measure st.font st.size (nombreCompleto data)))).bind
    fun puntosNombre =>
  let st := st.emitText puntosNombre 50 154 false none none
  -- lines 307-310
  let st := ((st.setFontSize 14).setFont cfg.fonts.body).setFillColor colorFuenteCaveat
  let st := st.emitText "DNI: " 25 180 true none none
  -- lines 313-323: `${data.dni},` in Caveat-Medium, else fonts.body
  let st := (((st.setFontSize 14).setFont (valueFont env cfg)).setFillColor
      colorFuenteCaveat).emitText (data.dni ++ ",") 25 175 false none none
  -- lines 331-335
  (jsRepeatDot (fillerCount 100 2 (env.measure st.font st.size (data.dni ++ ",")))).bind
    fun puntosDni =>
  let st := st.emitText puntosDni 50 184 false none none
  -- lines 338-341
  let st := ((st.setFontSize 14).setFont cfg.fonts.body).setFillColor colorFuenteCaveat
  let st := st.emitText "consulta el día de la fecha" 25 210 false none none
  -- lines 344-347
  let st := ((st.setFontSize 14).setFont cfg.fonts.body).setFillColor colorFuenteCaveat
  let st := st.emitText "por presentar " 25 240 true none none
  -- lines 348-359: `${descripcion},` in Caveat-Medium, else fonts.body
  let st := (((st.setFontSize 14).setFont (valueFont env cfg)).setFillColor
      colorFuenteCaveat).emitText (descripcion data ++ ",") 25 236 false none none
  -- lines 363-366
  let st := ((st.setFontSize 12).setFont cfg.fonts.body).setFillColor colorFuenteMedica
  let st := st.emitText "se sugiere reposo por " 25 270 true none none
  -- lines 367-377: `${data.horasReposo}hs.` in Caveat-Medium, else fonts.body
  let st := (((st.setFontSize 12).setFont (valueFont env cfg)).setFillColor
      colorFuenteCaveat).emitText (toString data.horasReposo ++ "hs.") 25 267 false none none
  -- lines 380-383
  let st := ((st.setFontSize 12).setFont cfg.fonts.body).setFillColor colorFuenteMedica
  let st := st.emitText "Diagnóstico: " 25 300 true none none
  -- lines 384-394
  let st := (((st.setFontSize 12).setFont (valueFont env cfg)).setFillColor
      colorFuenteCaveat).emitText data.codigoDiagnostico 25 296 false none none
  -- line 397
  Except.ok (drawDigitalSignature env st 160 360)

/-- Method `drawFooter` (lines 400-457): the issue date (or the wall clock when
absent) in Caveat-Medium else `fonts.body`, then the CamScanner caption. -/
def drawFooter (env : RenderEnv) (cfg : CertificadoConfig) (data : CertificadoData)
    (st : DocState) : DocState :=
  let fecha := data.fechaEmision.getD env.now
  let st := (((st.setFontSize 14).setFont (valueFont env cfg)).setFillColor
      "#000000").emitText (fechaStr fecha) 25 380 false none none
  let st := ((st.setFontSize 8).setFont cfg.fonts.body).setFillColor "#000000"
  st.emitText "Escaneado con CamScanner" 10 430 false (some 263) (some "right")

/-- Method `drawWatermark` (lines 501-520): everything but `doc.save()` and
`doc.restore()` is commented out in the source. -/
def drawWatermark (st : DocState) : DocState :=
  st.saveGfx.restoreGfx

/-- Method `drawCertificado` (lines 108-126): background, header, patient info
(which ends by drawing the signature), footer, watermark, in that order.  A
thrown `RangeError` aborts the sequence. -/
def drawCertificado (env : RenderEnv) (cfg : CertificadoConfig) (data : CertificadoData) :
    Except String DocState :=
  (drawPatientInfo env cfg data (drawHeader cfg (drawBackgroundImage cfg initDocState))).map
    fun st => drawWatermark (drawFooter env cfg data st)

/-- Serialization of one drawing command into the output stream.  Every
coordinate, size and width the generator ever passes is a constant of the
layout, so the data-dependent bytes of the output are exactly the text
strings, fonts and colors serialized here; geometry contributes constant
bytes and is therefore not repeated in the encoding. -/
def Cmd.render : Cmd → String
  | Cmd.rect _ _ _ _ c => "rect(" ++ c ++ ")"
  | Cmd.line _ _ _ _ c _ => "line(" ++ c ++ ")"
  | Cmd.text s _ _ f _ c _ _ _ => "text(" ++ s ++ "," ++ f ++ "," ++ c ++ ")"
  | Cmd.image p _ _ _ _ => "image(" ++ p ++ ")"
  | Cmd.save => "save()"
  | Cmd.restore => "restore()"

/-- Modelled from the spec: the underlying rendering engine (PDFKit, external
to this repository) finalizes the accumulated drawing operations into one
binary document that "starts with the expected document-format signature
bytes" — the PDF header `%PDF-` — followed by the serialized page content. -/
def finalize (cmds : List Cmd) : String :=
  "%PDF-" ++ String.join (cmds.map Cmd.render)

/-- Method `generateCertificado` (lines 43-106): the promise resolves with the
concatenation of every chunk the document emitted, collected only at the `end`
event; a synchronous throw inside `drawCertificado` is caught and rejects the
promise instead. -/
def generateCertificado (env : RenderEnv) (cfg : CertificadoConfig)
    (data : CertificadoData) : Except String String :=
  (drawCertificado env cfg data).map fun st => finalize st.cmds

/-- The width `doc.widthOfString(nombreCompleto)` measured at line 299: the
current font there is the value font and the current size is 14. -/
def nombreWidth (env : RenderEnv) (cfg : CertificadoConfig) (data : CertificadoData) : ℚ :=
  env.measure (valueFont env cfg) 14 (nombreCompleto data)

/-- The width `doc.widthOfString(data.dni + ',')` measured at line 332 (the
DNI is measured together with its appended comma). -/
def dniWidth (env : RenderEnv) (cfg : CertificadoConfig) (data : CertificadoData) : ℚ :=
  env.measure (valueFont env cfg) 14 (data.dni ++ ",")

/-- The command list of a draw result; empty when the draw threw. -/
def cmdsOf : Except String DocState → List Cmd
  | Except.error _ => []
  | Except.ok st => st.cmds

/-- The font of a text run, `none` for non-text commands. -/
def textFont : Cmd → Option String
  | Cmd.text _ _ _ f _ _ _ _ _ => some f
  | _ => none

/-- Whether a command is a filler line: a nonempty text run consisting solely
of `.` characters. -/
def isFillerRun : Cmd → Bool
  | Cmd.text s _ _ _ _ _ _ _ _ => !s.data.isEmpty && s.data.all (fun c => c = '.')
  | _ => false

/-- The propagation contract of the render operation: an error, or a buffer
that starts with the PDF signature bytes and is nonempty. -/
def bufferComplete : Except String String → Prop
  | Except.error _ => True
  | Except.ok buf => buf.data.take 5 = ("%PDF-").data ∧ buf ≠ ""

theorem fillerCount_nonneg {avail per w : ℚ} (hper : 0 < per) (h : w ≤ avail) :
    0 ≤ fillerCount avail per w :=
  Int.floor_nonneg.mpr (div_nonneg (by linarith) hper.le)

theorem exceptBind_ok (a : String) (f : String → Except String DocState) :
    (Except.ok a : Except String String).bind f = f a := rfl

theorem exceptBind_err (e : String) (f : String → Except String DocState) :
    (Except.error e : Except String String).bind f = Except.error e := rfl

theorem exceptMap_ok (st : DocState) (f : DocState → DocState) :
    (Except.ok st : Except String DocState).map f = Except.ok (f st) := rfl

theorem exceptMap_okStr (st : DocState) (f : DocState → String) :
    (Except.ok st : Except String DocState).map f = Except.ok (f st) := rfl

theorem exceptMap_errStr (e : String) (f : DocState → String) :
    (Except.error e : Except String DocState).map f = Except.error e := rfl

theorem exceptMap_err (e : String) (f : DocState → DocState) :
    (Except.error e : Except String DocState).map f = Except.error e := rfl

theorem drawDigitalSignature_imageOk (env : RenderEnv) (h : env.imageOk = true)
    (st : DocState) (x y : ℚ) :
    drawDigitalSignature env st x y =
      st.drawImage "./assets/firmaDigital.jpeg" 160 300 120 80 := by
  unfold drawDigitalSignature
  rw [h]
  simp

theorem drawDigitalSignature_imageFail (env : RenderEnv) (h : env.imageOk = false)
    (st : DocState) (x y : ℚ) :
    drawDigitalSignature env st x y =
      (st.setFontSize 8 |>.setFillColor "#000000"
        |>.emitText "Kardasz Ivana Noelia" x y false (some 100) (some "center")
        |>.setFontSize 7 |>.setFillColor "#000000"
        |>.emitText "Especialista" x (y + 10) false (some 100) (some "center")
        |>.setFontSize 6 |>.setFillColor "#000000"
        |>.emitText "Medicina General y Familiar" x (y + 20) false (some 100) (some "center")
        |>.setFontSize 7 |>.setFillColor "#000000"
        |>.emitText "M.P. 7532" x (y + 30) false (some 100) (some "center")) := by
  unfold drawDigitalSignature
  rw [h]
  simp

/-- When neither `'.'.repeat` call throws and the signature image loads, one
render call issues exactly this command sequence (the layout of the final
generator, command by command). -/
theorem drawCertificado_ok_of_imageOk (env : RenderEnv) (cfg : CertificadoConfig)
    (data : CertificadoData) (himg : env.imageOk = true)
    (hn : 0 ≤ fillerCount 200 3 (nombreWidth env cfg data))
    (hd : 0 ≤ fillerCount 100 2 (dniWidth env cfg data)) :
    drawCertificado env cfg data = Except.ok
      { font := cfg.fonts.body, size := 8, color := "#000000",
        cmds := [
          Cmd.rect 0 0 cfg.width cfg.height "#ffffff",
          Cmd.rect 0 0 2 cfg.height "#000000",
          Cmd.rect (cfg.width - 1) 0 1 cfg.height "#000000",
          Cmd.rect 0 0 cfg.width 1 "#000000",
          Cmd.rect 0 (cfg.height - 1) cfg.width 1 "#000000",
          Cmd.line 0 70 cfg.width 70 "#000000" (1 / 2),
          Cmd.line 0 410 cfg.width 410 "#000000" (1 / 2),
          Cmd.text "Dra. Kardasz Ivana Noelia" 10 25 cfg.fonts.title 12 "#000000" false (some 263) (some "center"),
          Cmd.text "ESPECIALISTA CLINICA GENERAL" 10 40 cfg.fonts.body 10 "#000000" false (some 263) (some "center"),
          Cmd.text "M.P. 7532" 10 50 cfg.fonts.body 10 "#000000" false (some 263) (some "center"),
          Cmd.text "Rp /" 10 90 cfg.fonts.body 10 "#000000" false none none,
          Cmd.text "Dejo constancia que el/la" 25 120 cfg.fonts.body 14 colorFuenteCaveat false none none,
          Cmd.text "Sr/a " 25 150 cfg.fonts.body 14 colorFuenteCaveat true none none,
          Cmd.text (nombreCompleto data) 25 145 (valueFont env cfg) 14 colorFuenteCaveat false none none,
          Cmd.text (String.mk (List.replicate (fillerCount 200 3 (nombreWidth env cfg data)).toNat '.')) 50 154 (valueFont env cfg) 14 colorFuenteCaveat false none none,
          Cmd.text "DNI: " 25 180 cfg.fonts.body 14 colorFuenteCaveat true none none,
          Cmd.text (data.dni ++ ",") 25 175 (valueFont env cfg) 14 colorFuenteCaveat false none none,
          Cmd.text (String.mk (List.replicate (fillerCount 100 2 (dniWidth env cfg data)).toNat '.')) 50 184 (valueFont env cfg) 14 colorFuenteCaveat false none none,
          Cmd.text "consulta el día de la fecha" 25 210 cfg.fonts.body 14 colorFuenteCaveat false none none,
          Cmd.text "por presentar " 25 240 cfg.fonts.body 14 colorFuenteCaveat true none none,
          Cmd.text (descripcion data ++ ",") 25 236 (valueFont env cfg) 14 colorFuenteCaveat false none none,
          Cmd.text "se sugiere reposo por " 25 270 cfg.fonts.body 12 colorFuenteMedica true none none,
          Cmd.text (toString data.horasReposo ++ "hs.") 25 267 (valueFont env cfg) 12 colorFuenteCaveat false none none,
          Cmd.text "Diagnóstico: " 25 300 cfg.fonts.body 12 colorFuenteMedica true none none,
          Cmd.text data.codigoDiagnostico 25 296 (valueFont env cfg) 12 colorFuenteCaveat false none none,
          Cmd.image "./assets/firmaDigital.jpeg" 160 300 120 80,
          Cmd.text (fechaStr (data.fechaEmision.getD env.now)) 25 380 (valueFont env cfg) 14 "#000000" false none none,
          Cmd.text "Escaneado con CamScanner" 10 430 cfg.fonts.body 8 "#000000" false (some 263) (some "right"),
          Cmd.save,
          Cmd.restore ] } := by
  have e1 : jsRepeatDot (fillerCount 200 3 (env.measure (valueFont env cfg) 14 (nombreCompleto data)))
      = Except.ok (String.mk (List.replicate (fillerCount 200 3 (env.measure (valueFont env cfg) 14 (nombreCompleto data))).toNat '.')) := by
    unfold jsRepeatDot
    rw [if_neg (not_lt.mpr (show (0:ℤ) ≤ fillerCount 200 3 (env.measure (valueFont env cfg) 14 (nombreCompleto data)) from hn))]
  have e2 : jsRepeatDot (fillerCount 100 2 (env.measure (valueFont env cfg) 14 (data.dni ++ ",")))
      = Except.ok (String.mk (List.replicate (fillerCount 100 2 (env.measure (valueFont env cfg) 14 (data.dni ++ ","))).toNat '.')) := by
    unfold jsRepeatDot
    rw [if_neg (not_lt.mpr (show (0:ℤ) ≤ fillerCount 100 2 (env.measure (valueFont env cfg) 14 (data.dni ++ ",")) from hd))]
  simp only [drawCertificado, drawPatientInfo, drawHeader, drawBackgroundImage, initDocState,
    DocState.setFontSize, DocState.setFont, DocState.setFillColor, DocState.emitText,
    DocState.fillRect, DocState.strokeLine, DocState.drawImage, DocState.saveGfx,
    DocState.restoreGfx, drawFooter, drawWatermark, List.cons_append, List.nil_append,
    e1, e2, exceptBind_ok, exceptMap_ok, drawDigitalSignature_imageOk env himg,
    nombreWidth, dniWidth]

/-- When neither `'.'.repeat` call throws and the signature image fails, one
render call issues the same sequence with the four-line text fallback in place
of the image. -/
theorem drawCertificado_ok_of_imageFail (env : RenderEnv) (cfg : CertificadoConfig)
    (data : CertificadoData) (himg : env.imageOk = false)
    (hn : 0 ≤ fillerCount 200 3 (nombreWidth env cfg data))
    (hd : 0 ≤ fillerCount 100 2 (dniWidth env cfg data)) :
    drawCertificado env cfg data = Except.ok
      { font := cfg.fonts.body, size := 8, color := "#000000",
        cmds := [
          Cmd.rect 0 0 cfg.width cfg.height "#ffffff",
          Cmd.rect 0 0 2 cfg.height "#000000",
          Cmd.rect (cfg.width - 1) 0 1 cfg.height "#000000",
          Cmd.rect 0 0 cfg.width 1 "#000000",
          Cmd.rect 0 (cfg.height - 1) cfg.width 1 "#000000",
          Cmd.line 0 70 cfg.width 70 "#000000" (1 / 2),
          Cmd.line 0 410 cfg.width 410 "#000000" (1 / 2),
          Cmd.text "Dra. Kardasz Ivana Noelia" 10 25 cfg.fonts.title 12 "#000000" false (some 263) (some "center"),
          Cmd.text "ESPECIALISTA CLINICA GENERAL" 10 40 cfg.fonts.body 10 "#000000" false (some 263) (some "center"),
          Cmd.text "M.P. 7532" 10 50 cfg.fonts.body 10 "#000000" false (some 263) (some "center"),
          Cmd.text "Rp /" 10 90 cfg.fonts.body 10 "#000000" false none none,
          Cmd.text "Dejo constancia que el/la" 25 120 cfg.fonts.body 14 colorFuenteCaveat false none none,
          Cmd.text "Sr/a " 25 150 cfg.fonts.body 14 colorFuenteCaveat true none none,
          Cmd.text (nombreCompleto data) 25 145 (valueFont env cfg) 14 colorFuenteCaveat false none none,
          Cmd.text (String.mk (List.replicate (fillerCount 200 3 (nombreWidth env cfg data)).toNat '.')) 50 154 (valueFont env cfg) 14 colorFuenteCaveat false none none,
          Cmd.text "DNI: " 25 180 cfg.fonts.body 14 colorFuenteCaveat true none none,
          Cmd.text (data.dni ++ ",") 25 175 (valueFont env cfg) 14 colorFuenteCaveat false none none,
          Cmd.text (String.mk (List.replicate (fillerCount 100 2 (dniWidth env cfg data)).toNat '.')) 50 184 (valueFont env cfg) 14 colorFuenteCaveat false none none,
          Cmd.text "consulta el día de la fecha" 25 210 cfg.fonts.body 14 colorFuenteCaveat false none none,
          Cmd.text "por presentar " 25 240 cfg.fonts.body 14 colorFuenteCaveat true none none,
          Cmd.text (descripcion data ++ ",") 25 236 (valueFont env cfg) 14 colorFuenteCaveat false none none,
          Cmd.text "se sugiere reposo por " 25 270 cfg.fonts.body 12 colorFuenteMedica true none none,
          Cmd.text (toString data.horasReposo ++ "hs.") 25 267 (valueFont env cfg) 12 colorFuenteCaveat false none none,
          Cmd.text "Diagnóstico: " 25 300 cfg.fonts.body 12 colorFuenteMedica true none none,
          Cmd.text data.codigoDiagnostico 25 296 (valueFont env cfg) 12 colorFuenteCaveat false none none,
          Cmd.text "Kardasz Ivana Noelia" 160 360 (valueFont env cfg) 8 "#000000" false (some 100) (some "center"),
          Cmd.text "Especialista" 160 (360 + 10) (valueFont env cfg) 7 "#000000" false (some 100) (some "center"),
          Cmd.text "Medicina General y Familiar" 160 (360 + 20) (valueFont env cfg) 6 "#000000" false (some 100) (some "center"),
          Cmd.text "M.P. 7532" 160 (360 + 30) (valueFont env cfg) 7 "#000000" false (some 100) (some "center"),
          Cmd.text (fechaStr (data.fechaEmision.getD env.now)) 25 380 (valueFont env cfg) 14 "#000000" false none none,
          Cmd.text "Escaneado con CamScanner" 10 430 cfg.fonts.body 8 "#000000" false (some 263) (some "right"),
          Cmd.save,
          Cmd.restore ] } := by
  have e1 : jsRepeatDot (fillerCount 200 3 (env.measure (valueFont env cfg) 14 (nombreCompleto data)))
      = Except.ok (String.mk (List.replicate (fillerCount 200 3 (env.measure (valueFont env cfg) 14 (nombreCompleto data))).toNat '.')) := by
    unfold jsRepeatDot
    rw [if_neg (not_lt.mpr (show (0:ℤ) ≤ fillerCount 200 3 (env.measure (valueFont env cfg) 14 (nombreCompleto data)) from hn))]
  have e2 : jsRepeatDot (fillerCount 100 2 (env.measure (valueFont env cfg) 14 (data.dni ++ ",")))
      = Except.ok (String.mk (List.replicate (fillerCount 100 2 (env.measure (valueFont env cfg) 14 (data.dni ++ ","))).toNat '.')) := by
    unfold jsRepeatDot
    rw [if_neg (not_lt.mpr (show (0:ℤ) ≤ fillerCount 100 2 (env.measure (valueFont env cfg) 14 (data.dni ++ ",")) from hd))]
  simp only [drawCertificado, drawPatientInfo, drawHeader, drawBackgroundImage, initDocState,
    DocState.setFontSize, DocState.setFont, DocState.setFillColor, DocState.emitText,
    DocState.fillRect, DocState.strokeLine, DocState.drawImage, DocState.saveGfx,
    DocState.restoreGfx, drawFooter, drawWatermark, List.cons_append, List.nil_append,
    e1, e2, exceptBind_ok, exceptMap_ok, drawDigitalSignature_imageFail env himg,
    nombreWidth, dniWidth]

/-- When the measured full-name width makes the computed dot count negative,
`'.'.repeat` throws a `RangeError` and the whole render rejects. -/
theorem generateCertificado_err_of_overflow (env : RenderEnv) (cfg : CertificadoConfig)
    (data : CertificadoData) (h : fillerCount 200 3 (nombreWidth env cfg data) < 0) :
    generateCertificado env cfg data = Except.error "RangeError: Invalid count value" := by
  have e1 : jsRepeatDot (fillerCount 200 3 (env.measure (valueFont env cfg) 14 (nombreCompleto data)))
      = Except.error "RangeError: Invalid count value" := by
    unfold jsRepeatDot
    rw [if_pos (show fillerCount 200 3 (env.measure (valueFont env cfg) 14 (nombreCompleto data)) < 0 from h)]
  simp only [generateCertificado, drawCertificado, drawPatientInfo, drawHeader,
    drawBackgroundImage, initDocState, DocState.setFontSize, DocState.setFont,
    DocState.setFillColor, DocState.emitText, DocState.fillRect, DocState.strokeLine,
    e1, exceptBind_err, exceptMap_err, exceptMap_errStr]

/-- Environment for the C1 failing input: fonts and image fine, but the
measured width of every string is 210 layout units (wider than the 200
available for the full name). -/
def envC1 : RenderEnv :=
  { caveatMediumOk := true, imageOk := true, measure := fun _ _ _ => 210,
    now := { getDate := 1, getMonth := 0, getFullYear := 2024 } }

/-- A validated-looking input whose long full name measures 210 units. -/
def dataC1 : CertificadoData :=
  { codigoDiagnostico := "J069", nombre := "Maria De Los Angeles",
    apellido := "Fernandez Gutierrez", dni := "33824963", horasReposo := 24,
    textoEntrada := "Sindrome gripal con fiebre", fechaEmision := none }

/-- Claim C1: the spec requires that a value at least as wide as its slot
still renders, with the filler count clamped to zero.  The code does not
clamp: at measured width 210 ≥ 200 the computed count is -4 and
`'.'.repeat(-4)` throws a `RangeError`, so `generateCertificado` rejects
instead of succeeding. -/
theorem c1_overflow_throws :
    generateCertificado envC1 defaultConfig dataC1
      = Except.error "RangeError: Invalid count value"
    ∧ fillerCount 200 3 (nombreWidth envC1 defaultConfig dataC1) = -4 := by
  have hw : nombreWidth envC1 defaultConfig dataC1 = 210 := by
    simp [nombreWidth, envC1]
  have hc : fillerCount 200 3 (nombreWidth envC1 defaultConfig dataC1) = -4 := by
    rw [hw]; norm_num [fillerCount]
  exact ⟨generateCertificado_err_of_overflow envC1 defaultConfig dataC1 (by rw [hc]; norm_num), hc⟩

/-- Claim C5, counterexample: the claim asserts every computed filler count is
nonnegative, but for a name-field value of measured width 250 (greater than
the measured width 150 of a shorter value) the code computes the negative
count -17; only the monotonicity half holds. -/
theorem c5_negative_count_counterexample :
    (150 : ℚ) < 250 ∧ fillerCount 200 3 250 ≤ fillerCount 200 3 150
    ∧ fillerCount 200 3 250 < 0 := by
  have h1 : fillerCount 200 3 150 = 16 := by norm_num [fillerCount]
  have h2 : fillerCount 200 3 250 = -17 := by norm_num [fillerCount]
  refine ⟨by norm_num, ?_, ?_⟩
  · rw [h1, h2]; norm_num
  · rw [h2]; norm_num

/-- Claim C5 (amended): for two measured widths `wa < wb` of the same field
the computed filler count for the narrower value is at least that of the wider
one (for both the full-name field, 200/3, and the DNI field, 100/2); counts
are nonnegative provided the measured width does not exceed the field's
available width — without that proviso the code's unclamped count can be
negative. -/
theorem c5_filler_monotonicity (wa wb : ℚ) (h : wa < wb) :
    (fillerCount 200 3 wb ≤ fillerCount 200 3 wa
      ∧ fillerCount 100 2 wb ≤ fillerCount 100 2 wa)
    ∧ (wa ≤ 200 → 0 ≤ fillerCount 200 3 wa) ∧ (wb ≤ 200 → 0 ≤ fillerCount 200 3 wb)
    ∧ (wa ≤ 100 → 0 ≤ fillerCount 100 2 wa) ∧ (wb ≤ 100 → 0 ≤ fillerCount 100 2 wb) := by
  refine ⟨⟨Int.floor_le_floor ?_, Int.floor_le_floor ?_⟩,
    fun hw => fillerCount_nonneg (by norm_num) hw,
    fun hw => fillerCount_nonneg (by norm_num) hw,
    fun hw => fillerCount_nonneg (by norm_num) hw,
    fun hw => fillerCount_nonneg (by norm_num) hw⟩
  · gcongr
  · gcongr

/-- Witness for the amended C5 at the concrete widths 10 < 20. -/
theorem c5_filler_monotonicity_witness :
    (10 : ℚ) < 20 ∧
    ((fillerCount 200 3 20 ≤ fillerCount 200 3 10
        ∧ fillerCount 100 2 20 ≤ fillerCount 100 2 10)
      ∧ ((10:ℚ) ≤ 200 → 0 ≤ fillerCount 200 3 10) ∧ ((20:ℚ) ≤ 200 → 0 ≤ fillerCount 200 3 20)
      ∧ ((10:ℚ) ≤ 100 → 0 ≤ fillerCount 100 2 10) ∧ ((20:ℚ) ≤ 100 → 0 ≤ fillerCount 100 2 20)) :=
  ⟨by norm_num, c5_filler_monotonicity 10 20 (by norm_num)⟩

/-- Claim C6: every render either rejects with an error or resolves with a
complete buffer — one that starts with the PDF signature bytes and is
nonempty; a partially collected chunk list is never returned as success. -/
theorem c6_complete_buffer_or_error (env : RenderEnv) (cfg : CertificadoConfig)
    (data : CertificadoData) :
    bufferComplete (generateCertificado env cfg data) := by
  unfold generateCertificado
  cases hdc : drawCertificado env cfg data with
  | error e => rw [exceptMap_errStr]; trivial
  | ok st =>
    rw [exceptMap_okStr]
    refine ⟨?_, ?_⟩
    · show (finalize st.cmds).data.take 5 = ("%PDF-").data
      unfold finalize
      rw [String.data_append]
      rfl
    · intro hcontra
      have hdata : (finalize st.cmds).data = ("" : String).data := by rw [hcontra]
      unfold finalize at hdata
      rw [String.data_append] at hdata
      rcases List.append_eq_nil.mp hdata with ⟨h1, _⟩
      exact absurd h1 (by decide)

/-- Claim C2: when a value fits its slot, the filler line drawn below it has
exactly `floor((availableWidth - measuredWidth) / perDotAdvance)` dot
characters — 200/3 for the full name, 100/2 for the DNI measured with its
trailing comma — and sits at the filler positions (50, 154) and (50, 184). -/
theorem c2_filler_dot_counts (env : RenderEnv) (cfg : CertificadoConfig)
    (data : CertificadoData)
    (hn : nombreWidth env cfg data < 200) (hd : dniWidth env cfg data < 100) :
    (drawCertificado env cfg data).isOk = true
    ∧ (cmdsOf (drawCertificado env cfg data)).get? 14 =
        some (Cmd.text (String.mk (List.replicate (fillerCount 200 3 (nombreWidth env cfg data)).toNat '.'))
          50 154 (valueFont env cfg) 14 colorFuenteCaveat false none none)
    ∧ ((String.mk (List.replicate (fillerCount 200 3 (nombreWidth env cfg data)).toNat '.')).length : ℤ)
        = Int.floor ((200 - nombreWidth env cfg data) / 3)
    ∧ (cmdsOf (drawCertificado env cfg data)).get? 17 =
        some (Cmd.text (String.mk (List.replicate (fillerCount 100 2 (dniWidth env cfg data)).toNat '.'))
          50 184 (valueFont env cfg) 14 colorFuenteCaveat false none none)
    ∧ ((String.mk (List.replicate (fillerCount 100 2 (dniWidth env cfg data)).toNat '.')).length : ℤ)
        = Int.floor ((100 - dniWidth env cfg data) / 2) := by
  have hn' : 0 ≤ fillerCount 200 3 (nombreWidth env cfg data) :=
    fillerCount_nonneg (by norm_num) hn.le
  have hd' : 0 ≤ fillerCount 100 2 (dniWidth env cfg data) :=
    fillerCount_nonneg (by norm_num) hd.le
  have hlen1 : ((String.mk (List.replicate (fillerCount 200 3 (nombreWidth env cfg data)).toNat '.')).length : ℤ)
      = Int.floor ((200 - nombreWidth env cfg data) / 3) := by
    have hl : (String.mk (List.replicate (fillerCount 200 3 (nombreWidth env cfg data)).toNat '.')).length
        = (fillerCount 200 3 (nombreWidth env cfg data)).toNat := by
      simp [String.length]
    rw [hl, Int.toNat_of_nonneg hn']
    rfl
  have hlen2 : ((String.mk (List.replicate (fillerCount 100 2 (dniWidth env cfg data)).toNat '.')).length : ℤ)
      = Int.floor ((100 - dniWidth env cfg data) / 2) := by
    have hl : (String.mk (List.replicate (fillerCount 100 2 (dniWidth env cfg data)).toNat '.')).length
        = (fillerCount 100 2 (dniWidth env cfg data)).toNat := by
      simp [String.length]
    rw [hl, Int.toNat_of_nonneg hd']
    rfl
  cases himg : env.imageOk with
  | false =>
    rw [drawCertificado_ok_of_imageFail env cfg data himg hn' hd']
    exact ⟨rfl, rfl, hlen1, rfl, hlen2⟩
  | true =>
    rw [drawCertificado_ok_of_imageOk env cfg data himg hn' hd']
    exact ⟨rfl, rfl, hlen1, rfl, hlen2⟩

/-- Environment where every measured width is 90 units: both fields fit. -/
def envC2 : RenderEnv :=
  { caveatMediumOk := true, imageOk := true, measure := fun _ _ _ => 90,
    now := { getDate := 1, getMonth := 0, getFullYear := 2024 } }

/-- Concrete data for the C2 witness. -/
def dataC2 : CertificadoData :=
  { codigoDiagnostico := "B349", nombre := "Jorge", apellido := "Jara",
    dni := "33824963", horasReposo := 24, textoEntrada := "Sindrome gripal",
    fechaEmision := some { getDate := 10, getMonth := 4, getFullYear := 2024 } }

/-- Witness for C2 at measured widths of 90 units. -/
theorem c2_filler_dot_counts_witness :
    nombreWidth envC2 defaultConfig dataC2 < 200 ∧ dniWidth envC2 defaultConfig dataC2 < 100 ∧
    ((drawCertificado envC2 defaultConfig dataC2).isOk = true
    ∧ (cmdsOf (drawCertificado envC2 defaultConfig dataC2)).get? 14 =
        some (Cmd.text (String.mk (List.replicate (fillerCount 200 3 (nombreWidth envC2 defaultConfig dataC2)).toNat '.'))
          50 154 (valueFont envC2 defaultConfig) 14 colorFuenteCaveat false none none)
    ∧ ((String.mk (List.replicate (fillerCount 200 3 (nombreWidth envC2 defaultConfig dataC2)).toNat '.')).length : ℤ)
        = Int.floor ((200 - nombreWidth envC2 defaultConfig dataC2) / 3)
    ∧ (cmdsOf (drawCertificado envC2 defaultConfig dataC2)).get? 17 =
        some (Cmd.text (String.mk (List.replicate (fillerCount 100 2 (dniWidth envC2 defaultConfig dataC2)).toNat '.'))
          50 184 (valueFont envC2 defaultConfig) 14 colorFuenteCaveat false none none)
    ∧ ((String.mk (List.replicate (fillerCount 100 2 (dniWidth envC2 defaultConfig dataC2)).toNat '.')).length : ℤ)
        = Int.floor ((100 - dniWidth envC2 defaultConfig dataC2) / 2)) :=
  ⟨by norm_num [nombreWidth, envC2], by norm_num [dniWidth, envC2],
    c2_filler_dot_counts envC2 defaultConfig dataC2
      (by norm_num [nombreWidth, envC2]) (by norm_num [dniWidth, envC2])⟩

/-- Environment for the C4 counterexample: widths 90, fonts and image fine. -/
def envC4 : RenderEnv :=
  { caveatMediumOk := true, imageOk := true, measure := fun _ _ _ => 90,
    now := { getDate := 1, getMonth := 0, getFullYear := 2024 } }

/-- Concrete data for the C4 counterexample. -/
def dataC4 : CertificadoData :=
  { codigoDiagnostico := "B349", nombre := "Ana", apellido := "Gil",
    dni := "12345678", horasReposo := 24, textoEntrada := "Sindrome gripal",
    fechaEmision := some { getDate := 10, getMonth := 4, getFullYear := 2024 } }

/-- Claim C4, counterexample: on a successful render the output contains
exactly two filler lines — below the full name (y = 154) and below the DNI
(y = 184).  No filler line is drawn below the free-text "por presentar" value
(whose baseline is y = 236), contradicting the claim that all three fields get
one. -/
theorem c4_no_filler_below_freetext :
    (drawCertificado envC4 defaultConfig dataC4).isOk = true
    ∧ List.filter isFillerRun (cmdsOf (drawCertificado envC4 defaultConfig dataC4))
      = [Cmd.text (String.mk (List.replicate 36 '.')) 50 154 "Caveat-Medium" 14 colorFuenteCaveat false none none,
         Cmd.text (String.mk (List.replicate 5 '.')) 50 184 "Caveat-Medium" 14 colorFuenteCaveat false none none] := by
  have hw : nombreWidth envC4 defaultConfig dataC4 = 90 := by simp [nombreWidth, envC4]
  have hwd : dniWidth envC4 defaultConfig dataC4 = 90 := by simp [dniWidth, envC4]
  have hc1 : fillerCount 200 3 (nombreWidth envC4 defaultConfig dataC4) = 36 := by
    rw [hw]; norm_num [fillerCount]
  have hc2 : fillerCount 100 2 (dniWidth envC4 defaultConfig dataC4) = 5 := by
    rw [hwd]; norm_num [fillerCount]
  rw [drawCertificado_ok_of_imageOk envC4 defaultConfig dataC4 rfl
    (by rw [hc1]; norm_num) (by rw [hc2]; norm_num), hc1, hc2]
  exact ⟨rfl, rfl⟩

/-- Claim C4 (amended): each of the three fields gets a label run followed by
its value in the decorative font if available else `fonts.body`, but filler
lines are drawn below the full name and the DNI only; the free-text value
drawn after "por presentar " is immediately followed by the next medical-info
label, with no filler line below it. -/
theorem c4_patient_block_structure (env : RenderEnv) (cfg : CertificadoConfig)
    (data : CertificadoData)
    (hn : nombreWidth env cfg data < 200) (hd : dniWidth env cfg data < 100) :
    (drawCertificado env cfg data).isOk = true
    ∧ (cmdsOf (drawCertificado env cfg data)).get? 12 =
        some (Cmd.text "Sr/a " 25 150 cfg.fonts.body 14 colorFuenteCaveat true none none)
    ∧ (cmdsOf (drawCertificado env cfg data)).get? 13 =
        some (Cmd.text (nombreCompleto data) 25 145 (valueFont env cfg) 14 colorFuenteCaveat false none none)
    ∧ (cmdsOf (drawCertificado env cfg data)).get? 14 =
        some (Cmd.text (String.mk (List.replicate (fillerCount 200 3 (nombreWidth env cfg data)).toNat '.'))
          50 154 (valueFont env cfg) 14 colorFuenteCaveat false none none)
    ∧ (cmdsOf (drawCertificado env cfg data)).get? 15 =
        some (Cmd.text "DNI: " 25 180 cfg.fonts.body 14 colorFuenteCaveat true none none)
    ∧ (cmdsOf (drawCertificado env cfg data)).get? 16 =
        some (Cmd.text (data.dni ++ ",") 25 175 (valueFont env cfg) 14 colorFuenteCaveat false none none)
    ∧ (cmdsOf (drawCertificado env cfg data)).get? 17 =
        some (Cmd.text (String.mk (List.replicate (fillerCount 100 2 (dniWidth env cfg data)).toNat '.'))
          50 184 (valueFont env cfg) 14 colorFuenteCaveat false none none)
    ∧ (cmdsOf (drawCertificado env cfg data)).get? 19 =
        some (Cmd.text "por presentar " 25 240 cfg.fonts.body 14 colorFuenteCaveat true none none)
    ∧ (cmdsOf (drawCertificado env cfg data)).get? 20 =
        some (Cmd.text (descripcion data ++ ",") 25 236 (valueFont env cfg) 14 colorFuenteCaveat false none none)
    ∧ (cmdsOf (drawCertificado env cfg data)).get? 21 =
        some (Cmd.text "se sugiere reposo por " 25 270 cfg.fonts.body 12 colorFuenteMedica true none none) := by
  have hn' : 0 ≤ fillerCount 200 3 (nombreWidth env cfg data) :=
    fillerCount_nonneg (by norm_num) hn.le
  have hd' : 0 ≤ fillerCount 100 2 (dniWidth env cfg data) :=
    fillerCount_nonneg (by norm_num) hd.le
  cases himg : env.imageOk with
  | false =>
    rw [drawCertificado_ok_of_imageFail env cfg data himg hn' hd']
    exact ⟨rfl, rfl, rfl, rfl, rfl, rfl, rfl, rfl, rfl, rfl⟩
  | true =>
    rw [drawCertificado_ok_of_imageOk env cfg data himg hn' hd']
    exact ⟨rfl, rfl, rfl, rfl, rfl, rfl, rfl, rfl, rfl, rfl⟩

/-- Witness for the amended C4 at the concrete C4 environment and data. -/
theorem c4_patient_block_structure_witness :
    nombreWidth envC4 defaultConfig dataC4 < 200 ∧ dniWidth envC4 defaultConfig dataC4 < 100 ∧
    ((drawCertificado envC4 defaultConfig dataC4).isOk = true
    ∧ (cmdsOf (drawCertificado envC4 defaultConfig dataC4)).get? 12 =
        some (Cmd.text "Sr/a " 25 150 defaultConfig.fonts.body 14 colorFuenteCaveat true none none)
    ∧ (cmdsOf (drawCertificado envC4 defaultConfig dataC4)).get? 13 =
        some (Cmd.text (nombreCompleto dataC4) 25 145 (valueFont envC4 defaultConfig) 14 colorFuenteCaveat false none none)
    ∧ (cmdsOf (drawCertificado envC4 defaultConfig dataC4)).get? 14 =
        some (Cmd.text (String.mk (List.replicate (fillerCount 200 3 (nombreWidth envC4 defaultConfig dataC4)).toNat '.'))
          50 154 (valueFont envC4 defaultConfig) 14 colorFuenteCaveat false none none)
    ∧ (cmdsOf (drawCertificado envC4 defaultConfig dataC4)).get? 15 =
        some (Cmd.text "DNI: " 25 180 defaultConfig.fonts.body 14 colorFuenteCaveat true none none)
    ∧ (cmdsOf (drawCertificado envC4 defaultConfig dataC4)).get? 16 =
        some (Cmd.text (dataC4.dni ++ ",") 25 175 (valueFont envC4 defaultConfig) 14 colorFuenteCaveat false none none)
    ∧ (cmdsOf (drawCertificado envC4 defaultConfig dataC4)).get? 17 =
        some (Cmd.text (String.mk (List.replicate (fillerCount 100 2 (dniWidth envC4 defaultConfig dataC4)).toNat '.'))
          50 184 (valueFont envC4 defaultConfig) 14 colorFuenteCaveat false none none)
    ∧ (cmdsOf (drawCertificado envC4 defaultConfig dataC4)).get? 19 =
        some (Cmd.text "por presentar " 25 240 defaultConfig.fonts.body 14 colorFuenteCaveat true none none)
    ∧ (cmdsOf (drawCertificado envC4 defaultConfig dataC4)).get? 20 =
        some (Cmd.text (descripcion dataC4 ++ ",") 25 236 (valueFont envC4 defaultConfig) 14 colorFuenteCaveat false none none)
    ∧ (cmdsOf (drawCertificado envC4 defaultConfig dataC4)).get? 21 =
        some (Cmd.text "se sugiere reposo por " 25 270 defaultConfig.fonts.body 12 colorFuenteMedica true none none)) :=
  ⟨by norm_num [nombreWidth, envC4], by norm_num [dniWidth, envC4],
    c4_patient_block_structure envC4 defaultConfig dataC4
      (by norm_num [nombreWidth, envC4]) (by norm_num [dniWidth, envC4])⟩

/-- Data with no issue date: line 417 then reads the wall clock. -/
def dataC3 : CertificadoData :=
  { codigoDiagnostico := "B349", nombre := "Jorge", apellido := "Jara",
    dni := "33824963", horasReposo := 24, textoEntrada := "Sindrome gripal",
    fechaEmision := none }

/-- First render call: the clock reads 2024-05-10. -/
def envC3a : RenderEnv :=
  { caveatMediumOk := true, imageOk := true, measure := fun _ _ _ => 90,
    now := { getDate := 10, getMonth := 4, getFullYear := 2024 } }

/-- Second render call: identical fonts, image and measurement, but the clock
reads 2024-05-11. -/
def envC3b : RenderEnv :=
  { caveatMediumOk := true, imageOk := true, measure := fun _ _ _ => 90,
    now := { getDate := 11, getMonth := 4, getFullYear := 2024 } }

/-- Claim C3, counterexample: with `fechaEmision` absent, two calls with
identical data, config, font-availability state, image state and measurement
— differing only in the wall clock — produce different buffers, because
`drawFooter` falls back to `new Date()`. -/
theorem c3_render_time_dependence :
    envC3a.caveatMediumOk = envC3b.caveatMediumOk ∧ envC3a.imageOk = envC3b.imageOk
    ∧ envC3a.measure = envC3b.measure ∧ dataC3.fechaEmision = none
    ∧ generateCertificado envC3a defaultConfig dataC3
        ≠ generateCertificado envC3b defaultConfig dataC3 := by
  have hwa : nombreWidth envC3a defaultConfig dataC3 = 90 := by simp [nombreWidth, envC3a]
  have hwb : nombreWidth envC3b defaultConfig dataC3 = 90 := by simp [nombreWidth, envC3b]
  have hda : dniWidth envC3a defaultConfig dataC3 = 90 := by simp [dniWidth, envC3a]
  have hdb : dniWidth envC3b defaultConfig dataC3 = 90 := by simp [dniWidth, envC3b]
  have hc1a : fillerCount 200 3 (nombreWidth envC3a defaultConfig dataC3) = 36 := by
    rw [hwa]; norm_num [fillerCount]
  have hc1b : fillerCount 200 3 (nombreWidth envC3b defaultConfig dataC3) = 36 := by
    rw [hwb]; norm_num [fillerCount]
  have hc2a : fillerCount 100 2 (dniWidth envC3a defaultConfig dataC3) = 5 := by
    rw [hda]; norm_num [fillerCount]
  have hc2b : fillerCount 100 2 (dniWidth envC3b defaultConfig dataC3) = 5 := by
    rw [hdb]; norm_num [fillerCount]
  have hA := drawCertificado_ok_of_imageOk envC3a defaultConfig dataC3 rfl
    (by rw [hc1a]; norm_num) (by rw [hc2a]; norm_num)
  have hB := drawCertificado_ok_of_imageOk envC3b defaultConfig dataC3 rfl
    (by rw [hc1b]; norm_num) (by rw [hc2b]; norm_num)
  rw [hc1a, hc2a] at hA
  rw [hc1b, hc2b] at hB
  refine ⟨rfl, rfl, rfl, rfl, ?_⟩
  intro hcontra
  simp only [generateCertificado, hA, hB, exceptMap_okStr] at hcontra
  injection hcontra with hs
  have hname : nombreCompleto dataC3 = "JORGE JARA" := rfl
  have hdesc : descripcion dataC3 = "Sindrome gripal" := rfl
  have h24 : toString dataC3.horasReposo = "24" := rfl
  have hdni : dataC3.dni = "33824963" := rfl
  have hcod : dataC3.codigoDiagnostico = "B349" := rfl
  have hvfa : valueFont envC3a defaultConfig = "Caveat-Medium" := rfl
  have hvfb : valueFont envC3b defaultConfig = "Caveat-Medium" := rfl
  have hbody : defaultConfig.fonts.body = "Helvetica" := rfl
  have htitle : defaultConfig.fonts.title = "Helvetica-Bold" := rfl
  have hfa : fechaStr (dataC3.fechaEmision.getD envC3a.now) = "10/05/2024" := rfl
  have hfb : fechaStr (dataC3.fechaEmision.getD envC3b.now) = "11/05/2024" := rfl
  rw [hname, hdesc, h24, hdni, hcod, hvfa, hvfb, hbody, htitle, hfa, hfb] at hs
  exact absurd hs (by simp [finalize, Cmd.render, String.join, colorFuenteCaveat, colorFuenteMedica])

/-- Claim C3 (amended): when `fechaEmision` is present the render output does
not depend on the wall clock at all — identical data, config and
font-availability state then give byte-identical buffers regardless of when
the two calls run. -/
theorem c3_determinism_with_issueDate (env : RenderEnv) (cfg : CertificadoConfig)
    (data : CertificadoData) (f n1 n2 : Fecha) (h : data.fechaEmision = some f) :
    generateCertificado { env with now := n1 } cfg data
      = generateCertificado { env with now := n2 } cfg data := by
  have hpat : ∀ st, drawPatientInfo { env with now := n1 } cfg data st
      = drawPatientInfo { env with now := n2 } cfg data st := fun _ => rfl
  have hfoot : ∀ st, drawFooter { env with now := n1 } cfg data st
      = drawFooter { env with now := n2 } cfg data st := by
    intro st
    unfold drawFooter
    rw [h]
    rfl
  simp only [generateCertificado, drawCertificado, hpat, hfoot]

/-- Environment for the C3 witness (the `now` field is overridden in the
witness statement itself). -/
def envC3w : RenderEnv :=
  { caveatMediumOk := true, imageOk := true, measure := fun _ _ _ => 90,
    now := { getDate := 1, getMonth := 0, getFullYear := 2024 } }

/-- Data with a present issue date for the C3 witness. -/
def dataC3w : CertificadoData :=
  { codigoDiagnostico := "B349", nombre := "Jorge", apellido := "Jara",
    dni := "33824963", horasReposo := 24, textoEntrada := "Sindrome gripal",
    fechaEmision := some { getDate := 10, getMonth := 4, getFullYear := 2024 } }

/-- Witness for the amended C3: with the issue date present, two render calls
whose clocks differ by a day give the same result. -/
theorem c3_determinism_with_issueDate_witness :
    dataC3w.fechaEmision = some { getDate := 10, getMonth := 4, getFullYear := 2024 }
    ∧ generateCertificado { envC3w with now := { getDate := 1, getMonth := 0, getFullYear := 2030 } }
          defaultConfig dataC3w
      = generateCertificado { envC3w with now := { getDate := 2, getMonth := 0, getFullYear := 2030 } }
          defaultConfig dataC3w :=
  ⟨rfl, c3_determinism_with_issueDate envC3w defaultConfig dataC3w
    { getDate := 10, getMonth := 4, getFullYear := 2024 }
    { getDate := 1, getMonth := 0, getFullYear := 2030 }
    { getDate := 2, getMonth := 0, getFullYear := 2030 } rfl⟩

/-- Environment for the C7 counterexample: the signature image fails AND the
name measures 210 units. -/
def envC7 : RenderEnv :=
  { caveatMediumOk := true, imageOk := false, measure := fun _ _ _ => 210,
    now := { getDate := 1, getMonth := 0, getFullYear := 2024 } }

/-- A validated-looking input with a long full name, for C7. -/
def dataC7 : CertificadoData :=
  { codigoDiagnostico := "J069", nombre := "Maria Alejandra",
    apellido := "Villalba Echeverria", dni := "28456123", horasReposo := 48,
    textoEntrada := "Cuadro febril agudo", fechaEmision := none }

/-- Claim C7, counterexample: with the signature image failing, the claim says
`generateCertificado` still succeeds for any data; but for a full name of
measured width 210 the render rejects with a `RangeError` (thrown in the
filler computation, before the signature phase is ever reached). -/
theorem c7_render_fails_despite_image_fallback :
    envC7.imageOk = false ∧
    generateCertificado envC7 defaultConfig dataC7
      = Except.error "RangeError: Invalid count value" := by
  have hw : nombreWidth envC7 defaultConfig dataC7 = 210 := by simp [nombreWidth, envC7]
  refine ⟨rfl, generateCertificado_err_of_overflow envC7 defaultConfig dataC7 ?_⟩
  rw [hw]
  norm_num [fillerCount]

/-- Claim C7 (amended): whenever the render does not abort in the earlier
filler computations (both measured widths fit their slots), a failing
signature image never fails the render: the draw succeeds and the output
carries the four stacked centered text lines (practitioner name, title,
specialty, license) at the signature anchor (160, 360) in the image's place. -/
theorem c7_signature_text_fallback (env : RenderEnv) (cfg : CertificadoConfig)
    (data : CertificadoData) (himg : env.imageOk = false)
    (hn : nombreWidth env cfg data < 200) (hd : dniWidth env cfg data < 100) :
    (drawCertificado env cfg data).isOk = true
    ∧ (cmdsOf (drawCertificado env cfg data)).get? 25 =
        some (Cmd.text "Kardasz Ivana Noelia" 160 360 (valueFont env cfg) 8 "#000000" false (some 100) (some "center"))
    ∧ (cmdsOf (drawCertificado env cfg data)).get? 26 =
        some (Cmd.text "Especialista" 160 (360 + 10) (valueFont env cfg) 7 "#000000" false (some 100) (some "center"))
    ∧ (cmdsOf (drawCertificado env cfg data)).get? 27 =
        some (Cmd.text "Medicina General y Familiar" 160 (360 + 20) (valueFont env cfg) 6 "#000000" false (some 100) (some "center"))
    ∧ (cmdsOf (drawCertificado env cfg data)).get? 28 =
        some (Cmd.text "M.P. 7532" 160 (360 + 30) (valueFont env cfg) 7 "#000000" false (some 100) (some "center")) := by
  have hn' : 0 ≤ fillerCount 200 3 (nombreWidth env cfg data) :=
    fillerCount_nonneg (by norm_num) hn.le
  have hd' : 0 ≤ fillerCount 100 2 (dniWidth env cfg data) :=
    fillerCount_nonneg (by norm_num) hd.le
  rw [drawCertificado_ok_of_imageFail env cfg data himg hn' hd']
  exact ⟨rfl, rfl, rfl, rfl, rfl⟩

/-- Environment for the C7 witness: image fails, widths fit. -/
def envC7w : RenderEnv :=
  { caveatMediumOk := true, imageOk := false, measure := fun _ _ _ => 90,
    now := { getDate := 1, getMonth := 0, getFullYear := 2024 } }

/-- Concrete data for the C7 witness. -/
def dataC7w : CertificadoData :=
  { codigoDiagnostico := "B349", nombre := "Jorge", apellido := "Jara",
    dni := "33824963", horasReposo := 24, textoEntrada := "Sindrome gripal",
    fechaEmision := some { getDate := 10, getMonth := 4, getFullYear := 2024 } }

/-- Witness for the amended C7. -/
theorem c7_signature_text_fallback_witness :
    envC7w.imageOk = false ∧ nombreWidth envC7w defaultConfig dataC7w < 200
    ∧ dniWidth envC7w defaultConfig dataC7w < 100 ∧
    ((drawCertificado envC7w defaultConfig dataC7w).isOk = true
    ∧ (cmdsOf (drawCertificado envC7w defaultConfig dataC7w)).get? 25 =
        some (Cmd.text "Kardasz Ivana Noelia" 160 360 (valueFont envC7w defaultConfig) 8 "#000000" false (some 100) (some "center"))
    ∧ (cmdsOf (drawCertificado envC7w defaultConfig dataC7w)).get? 26 =
        some (Cmd.text "Especialista" 160 (360 + 10) (valueFont envC7w defaultConfig) 7 "#000000" false (some 100) (some "center"))
    ∧ (cmdsOf (drawCertificado envC7w defaultConfig dataC7w)).get? 27 =
        some (Cmd.text "Medicina General y Familiar" 160 (360 + 20) (valueFont envC7w defaultConfig) 6 "#000000" false (some 100) (some "center"))
    ∧ (cmdsOf (drawCertificado envC7w defaultConfig dataC7w)).get? 28 =
        some (Cmd.text "M.P. 7532" 160 (360 + 30) (valueFont envC7w defaultConfig) 7 "#000000" false (some 100) (some "center"))) :=
  ⟨rfl, by norm_num [nombreWidth, envC7w], by norm_num [dniWidth, envC7w],
    c7_signature_text_fallback envC7w defaultConfig dataC7w rfl
      (by norm_num [nombreWidth, envC7w]) (by norm_num [dniWidth, envC7w])⟩

/-- Environment for the C8 counterexample: no Caveat font registered AND the
name measures 210 units in the fallback font. -/
def envC8 : RenderEnv :=
  { caveatMediumOk := false, imageOk := true, measure := fun _ _ _ => 210,
    now := { getDate := 1, getMonth := 0, getFullYear := 2024 } }

/-- A validated-looking input with a long full name, for C8. -/
def dataC8 : CertificadoData :=
  { codigoDiagnostico := "J069", nombre := "Juan Sebastian",
    apellido := "Monzon Ledesma", dni := "30111222", horasReposo := 72,
    textoEntrada := "Lumbalgia aguda postraumatica", fechaEmision := none }

/-- Claim C8, counterexample: with every Caveat registration failed the claim
says `generateCertificado` still succeeds for every valid data; but for a full
name whose fallback-font measured width is 210 the render rejects with a
`RangeError` in the filler computation. -/
theorem c8_render_fails_without_fonts :
    envC8.caveatMediumOk = false ∧
    generateCertificado envC8 defaultConfig dataC8
      = Except.error "RangeError: Invalid count value" := by
  have hw : nombreWidth envC8 defaultConfig dataC8 = 210 := by simp [nombreWidth, envC8]
  refine ⟨rfl, generateCertificado_err_of_overflow envC8 defaultConfig dataC8 ?_⟩
  rw [hw]
  norm_num [fillerCount]

/-- Claim C8 (amended): when every Caveat registration fails and the measured
widths fit their slots, the render still succeeds and every text run in the
output uses `cfg.fonts.title` or `cfg.fonts.body` — each run that requested
Caveat-Medium fell back to `fonts.body`; the font failure alone never aborts
the render. -/
theorem c8_font_fallback_to_body (env : RenderEnv) (cfg : CertificadoConfig)
    (data : CertificadoData) (hcav : env.caveatMediumOk = false)
    (hn : nombreWidth env cfg data < 200) (hd : dniWidth env cfg data < 100) :
    (drawCertificado env cfg data).isOk = true
    ∧ ∀ c ∈ cmdsOf (drawCertificado env cfg data), ∀ f, textFont c = some f →
        f = cfg.fonts.title ∨ f = cfg.fonts.body := by
  have hvf : valueFont env cfg = cfg.fonts.body := by simp [valueFont, hcav]
  have hn' : 0 ≤ fillerCount 200 3 (nombreWidth env cfg data) :=
    fillerCount_nonneg (by norm_num) hn.le
  have hd' : 0 ≤ fillerCount 100 2 (dniWidth env cfg data) :=
    fillerCount_nonneg (by norm_num) hd.le
  cases himg : env.imageOk with
  | false =>
    rw [drawCertificado_ok_of_imageFail env cfg data himg hn' hd', hvf]
    refine ⟨rfl, ?_⟩
    intro c hc f hf
    simp only [cmdsOf] at hc
    fin_cases hc <;> simp_all [textFont]
  | true =>
    rw [drawCertificado_ok_of_imageOk env cfg data himg hn' hd', hvf]
    refine ⟨rfl, ?_⟩
    intro c hc f hf
    simp only [cmdsOf] at hc
    fin_cases hc <;> simp_all [textFont]

/-- Environment for the C8 witness: fonts failed, widths fit. -/
def envC8w : RenderEnv :=
  { caveatMediumOk := false, imageOk := true, measure := fun _ _ _ => 90,
    now := { getDate := 1, getMonth := 0, getFullYear := 2024 } }

/-- Concrete data for the C8 witness. -/
def dataC8w : CertificadoData :=
  { codigoDiagnostico := "B349", nombre := "Jorge", apellido := "Jara",
    dni := "33824963", horasReposo := 24, textoEntrada := "Sindrome gripal",
    fechaEmision := some { getDate := 10, getMonth := 4, getFullYear := 2024 } }

/-- Witness for the amended C8. -/
theorem c8_font_fallback_to_body_witness :
    envC8w.caveatMediumOk = false ∧ nombreWidth envC8w defaultConfig dataC8w < 200
    ∧ dniWidth envC8w defaultConfig dataC8w < 100 ∧
    ((drawCertificado envC8w defaultConfig dataC8w).isOk = true
    ∧ ∀ c ∈ cmdsOf (drawCertificado envC8w defaultConfig dataC8w), ∀ f, textFont c = some f →
        f = defaultConfig.fonts.title ∨ f = defaultConfig.fonts.body) :=
  ⟨rfl, by norm_num [nombreWidth, envC8w], by norm_num [dniWidth, envC8w],
    c8_font_fallback_to_body envC8w defaultConfig dataC8w rfl
      (by norm_num [nombreWidth, envC8w]) (by norm_num [dniWidth, envC8w])⟩

/-- The scenario input of the spec: JORGE JARA, DNI 33824963, B349, 24 h,
"Sindrome gripal", issued 2024-05-10 (a JS date with `getMonth() = 4`). -/
def dataC9 : CertificadoData :=
  { codigoDiagnostico := "B349", nombre := "JORGE", apellido := "JARA",
    dni := "33824963", horasReposo := 24, textoEntrada := "Sindrome gripal",
    fechaEmision := some { getDate := 10, getMonth := 4, getFullYear := 2024 } }

/-- Claim C9: on the scenario input the render succeeds, the footer date run
is the zero-padded string "10/05/2024", the patient block carries the
uppercased full name "JORGE JARA", and day/month are zero-padded to two
digits in general (for 2025-11-03 the string is "03/11/2025"). -/
theorem c9_scenario_jorge_jara (env : RenderEnv)
    (hn : nombreWidth env defaultConfig dataC9 < 200)
    (hd : dniWidth env defaultConfig dataC9 < 100) :
    (generateCertificado env defaultConfig dataC9).isOk = true
    ∧ Cmd.text "10/05/2024" 25 380 (valueFont env defaultConfig) 14 "#000000" false none none
        ∈ cmdsOf (drawCertificado env defaultConfig dataC9)
    ∧ Cmd.text "JORGE JARA" 25 145 (valueFont env defaultConfig) 14 colorFuenteCaveat false none none
        ∈ cmdsOf (drawCertificado env defaultConfig dataC9)
    ∧ fechaStr { getDate := 3, getMonth := 10, getFullYear := 2025 } = "03/11/2025" := by
  have hn' : 0 ≤ fillerCount 200 3 (nombreWidth env defaultConfig dataC9) :=
    fillerCount_nonneg (by norm_num) hn.le
  have hd' : 0 ≤ fillerCount 100 2 (dniWidth env defaultConfig dataC9) :=
    fillerCount_nonneg (by norm_num) hd.le
  have hfs : fechaStr (dataC9.fechaEmision.getD env.now) = "10/05/2024" := by
    have he : dataC9.fechaEmision = some { getDate := 10, getMonth := 4, getFullYear := 2024 } := rfl
    rw [he, Option.getD_some]
    rfl
  have hname : nombreCompleto dataC9 = "JORGE JARA" := rfl
  cases himg : env.imageOk with
  | true =>
    have hok := drawCertificado_ok_of_imageOk env defaultConfig dataC9 himg hn' hd'
    rw [hfs, hname] at hok
    refine ⟨?_, ?_, ?_, rfl⟩
    · simp only [generateCertificado, hok, exceptMap_okStr]
      rfl
    · rw [hok]
      exact @List.get?_mem _ _ 26 _ rfl
    · rw [hok]
      exact @List.get?_mem _ _ 13 _ rfl
  | false =>
    have hok := drawCertificado_ok_of_imageFail env defaultConfig dataC9 himg hn' hd'
    rw [hfs, hname] at hok
    refine ⟨?_, ?_, ?_, rfl⟩
    · simp only [generateCertificado, hok, exceptMap_okStr]
      rfl
    · rw [hok]
      exact @List.get?_mem _ _ 29 _ rfl
    · rw [hok]
      exact @List.get?_mem _ _ 13 _ rfl

/-- Environment for the C9 witness: widths fit. -/
def envC9w : RenderEnv :=
  { caveatMediumOk := true, imageOk := true, measure := fun _ _ _ => 90,
    now := { getDate := 1, getMonth := 0, getFullYear := 2024 } }

/-- Witness for C9 at the scenario input. -/
theorem c9_scenario_jorge_jara_witness :
    nombreWidth envC9w defaultConfig dataC9 < 200 ∧ dniWidth envC9w defaultConfig dataC9 < 100 ∧
    ((generateCertificado envC9w defaultConfig dataC9).isOk = true
    ∧ Cmd.text "10/05/2024" 25 380 (valueFont envC9w defaultConfig) 14 "#000000" false none none
        ∈ cmdsOf (drawCertificado envC9w defaultConfig dataC9)
    ∧ Cmd.text "JORGE JARA" 25 145 (valueFont envC9w defaultConfig) 14 colorFuenteCaveat false none none
        ∈ cmdsOf (drawCertificado envC9w defaultConfig dataC9)
    ∧ fechaStr { getDate := 3, getMonth := 10, getFullYear := 2025 } = "03/11/2025") :=
  ⟨by norm_num [nombreWidth, envC9w], by norm_num [dniWidth, envC9w],
    c9_scenario_jorge_jara envC9w
      (by norm_num [nombreWidth, envC9w]) (by norm_num [dniWidth, envC9w])⟩

/-- Claim C10: the free-text run drawn after "por presentar " is
`data.textoEntrada || 'síndrome gripal'` followed by a comma: the literal
default "síndrome gripal" exactly when `textoEntrada` is the empty string
(the only falsy string), and the input itself verbatim otherwise. -/
theorem c10_descripcion_default (env : RenderEnv) (cfg : CertificadoConfig)
    (data : CertificadoData)
    (hn : nombreWidth env cfg data < 200) (hd : dniWidth env cfg data < 100) :
    (cmdsOf (drawCertificado env cfg data)).get? 20 =
      some (Cmd.text (descripcion data ++ ",") 25 236 (valueFont env cfg) 14 colorFuenteCaveat false none none)
    ∧ (data.textoEntrada = "" → descripcion data = "síndrome gripal")
    ∧ (data.textoEntrada ≠ "" → descripcion data = data.textoEntrada) := by
  have hn' : 0 ≤ fillerCount 200 3 (nombreWidth env cfg data) :=
    fillerCount_nonneg (by norm_num) hn.le
  have hd' : 0 ≤ fillerCount 100 2 (dniWidth env cfg data) :=
    fillerCount_nonneg (by norm_num) hd.le
  refine ⟨?_, fun h => by simp [descripcion, h], fun h => by simp [descripcion, h]⟩
  cases himg : env.imageOk with
  | true =>
    rw [drawCertificado_ok_of_imageOk env cfg data himg hn' hd']
    rfl
  | false =>
    rw [drawCertificado_ok_of_imageFail env cfg data himg hn' hd']
    rfl

/-- Environment for the C10 witness. -/
def envC10 : RenderEnv :=
  { caveatMediumOk := true, imageOk := true, measure := fun _ _ _ => 90,
    now := { getDate := 1, getMonth := 0, getFullYear := 2024 } }

/-- Data with an empty free-text field, exercising the default. -/
def dataC10 : CertificadoData :=
  { codigoDiagnostico := "B349", nombre := "Jorge", apellido := "Jara",
    dni := "33824963", horasReposo := 24, textoEntrada := "",
    fechaEmision := some { getDate := 10, getMonth := 4, getFullYear := 2024 } }

/-- Witness for C10 at an input with empty `textoEntrada`. -/
theorem c10_descripcion_default_witness :
    nombreWidth envC10 defaultConfig dataC10 < 200 ∧ dniWidth envC10 defaultConfig dataC10 < 100 ∧
    ((cmdsOf (drawCertificado envC10 defaultConfig dataC10)).get? 20 =
      some (Cmd.text (descripcion dataC10 ++ ",") 25 236 (valueFont envC10 defaultConfig) 14 colorFuenteCaveat false none none)
    ∧ (dataC10.textoEntrada = "" → descripcion dataC10 = "síndrome gripal")
    ∧ (dataC10.textoEntrada ≠ "" → descripcion dataC10 = dataC10.textoEntrada)) :=
  ⟨by norm_num [nombreWidth, envC10], by norm_num [dniWidth, envC10],
    c10_descripcion_default envC10 defaultConfig dataC10
      (by norm_num [nombreWidth, envC10]) (by norm_num [dniWidth, envC10])⟩
